import Mathlib

/-!
Verification of `src/decision_making.cpp` (vehicle-interaction-decision-making).

This file gives a shallow embedding of the simulation driver `run` and the
entry point `main` of `decision_making.cpp`, and proves or refutes the
specification claims about them.

Conventions of the embedding:
* C++ `double` timestamps and configuration values are modelled as `ℚ`
  (exact arithmetic; the claims under study are about control flow and
  integer arithmetic, not floating-point rounding).
* The two environment queries `vehicles.is_all_get_target()` and
  `vehicles.is_any_collision()` are implemented in headers that are not part
  of the translation unit; the loop theorems quantify over arbitrary boolean
  streams `allGetTarget, anyCollision : Nat → Bool`, so they hold for the
  actual predicates whatever their values are at each tick.
* C++ unsigned integer division is total only for a nonzero divisor; a zero
  divisor is undefined behaviour.  The embedding returns `Option Nat`, with
  `none` meaning "the source executed a division whose divisor is zero"
  (there is no guard in the source; `none` marks reaching that undefined
  division, not a handled error).
* An exception thrown outside every `try` block terminates the process; the
  embedding of the configuration phase returns a distinguished
  `uncaughtThrow` value for that, as opposed to `parseErrorReturn` for the
  caught parse failure (`YAML::LoadFile` is the only call inside the `try`).
-/

namespace DecisionMaking

/-- Outcome of the per-tick check phase at the top of the `while (true)` loop
of `run` (`decision_making.cpp` lines 78-92): break with success, break with
failure, or fall through and keep simulating. -/
inductive StepDecision where
  | succeedBreak
  | failBreak
  | continueTick
deriving DecidableEq

/-- Embedding of the check phase of the tick loop (lines 79-92):
`if (vehicles.is_all_get_target()) { ...; ++succeed_count; break; }`
then `if (vehicles.is_any_collision() || timestamp > max_simulation_time)
{ ...; break; }`.  Both failure causes flow into the single second branch;
the log message and the control flow are identical for a collision and for a
timeout. -/
def checkPhase (allGetTarget anyCollision : Bool) (timestamp max_simulation_time : ℚ) :
    StepDecision :=
  if allGetTarget then StepDecision.succeedBreak
  else if anyCollision = true ∨ timestamp > max_simulation_time then StepDecision.failBreak
  else StepDecision.continueTick

/-- Result of one round of the outer `for` loop of `run`: the loop body exits
its `while (true)` either through the success `break` (logging
"Round ... successed" and incrementing `succeed_count`) or through the failure
`break` (logging "Round ... failed").  These are the only two exits. -/
inductive RoundResult where
  | succeeded
  | failed
deriving DecidableEq

/-- Embedding of the `while (true)` tick loop of one round (lines 76-134).
At tick `k` the timestamp equals `k * delta_t` (it starts at `0.0` and the
loop executes `timestamp += delta_t` once per iteration, after the planning
threads are joined).  `fuel` bounds the number of iterations we unfold; the
real loop has no bound, so `none` means "did not exit within `fuel`
iterations". -/
def roundLoop (allGetTarget anyCollision : Nat → Bool)
    (delta_t max_simulation_time : ℚ) : Nat → Nat → Option RoundResult
  | 0, _ => none
  | fuel + 1, k =>
    match checkPhase (allGetTarget k) (anyCollision k)
        ((k : ℚ) * delta_t) max_simulation_time with
    | StepDecision.succeedBreak => some RoundResult.succeeded
    | StepDecision.failBreak => some RoundResult.failed
    | StepDecision.continueTick =>
        roundLoop allGetTarget anyCollision delta_t max_simulation_time fuel (k + 1)

/-- Embedding of the `succeed_count` accumulation over the outer round loop
(lines 66-84): `succeed_count` starts at `0` and `++succeed_count` executes
exactly once in a round, in the success `break` branch, and nowhere else.
`res i` is the result of round `i` (`none` if that round never exits its tick
loop). -/
def succeedCount (res : Nat → Option RoundResult) : Nat → Nat
  | 0 => 0
  | n + 1 =>
      succeedCount res n + (if res n = some RoundResult.succeeded then 1 else 0)

/-- Embedding of line 157, `double succeed_rate = 100 * succeed_count /
rounds_num;`.  All three operands are integers (`uint64_t` after the usual
conversions), so `/` is unsigned integer division; the quotient is only then
converted to `double`.  The source contains no guard on `rounds_num`, so a
zero divisor reaches C++ undefined behaviour, modelled as `none`. -/
def reportRate (succeed_count rounds_num : Nat) : Option Nat :=
  if rounds_num = 0 then none else some (100 * succeed_count / rounds_num)

/-- The four configuration scalars that `run` reads *outside* the `try`
block (lines 49-52).  `none` models a key that is absent from the YAML file
(`as<double>()` on such a node throws). -/
structure RawConfig where
  delta_t : Option ℚ
  max_simulation_time : Option ℚ
  map_size : Option ℚ
  lane_width : Option ℚ

/-- How the configuration phase of `run` (lines 38-52) ends. -/
inductive ConfigOutcome where
  | parseErrorReturn
  | uncaughtThrow
  | configLoaded (delta_t max_simulation_time map_size lane_width : ℚ)
deriving DecidableEq

/-- Embedding of the configuration phase of `run` (lines 38-52).  The `try`
block wraps only `YAML::LoadFile`; a parse failure (`loaded = none`) is
caught, logged and followed by `return` (graceful abort).  The four
`config[key].as<double>()` reads happen *after* the `catch`, outside any
`try`; if any key is missing, the thrown `YAML::Exception` propagates out of
`run` and out of `main` uncaught, terminating the process. -/
def configPhase (loaded : Option RawConfig) : ConfigOutcome :=
  match loaded with
  | none => ConfigOutcome.parseErrorReturn
  | some cfg =>
    match cfg.delta_t, cfg.max_simulation_time, cfg.map_size, cfg.lane_width with
    | some dt, some mt, some ms, some lw => ConfigOutcome.configLoaded dt mt ms lw
    | _, _, _, _ => ConfigOutcome.uncaughtThrow

/-- Embedding of `LOG_LEVEL_DICT` (lines 32-34) with the numeric values of
`spdlog::level::level_enum`: trace = 0, debug = 1, info = 2, warn = 3,
err = 4, critical = 5. -/
def LOG_LEVEL_DICT : List (String × Nat) :=
  [("trace", 0), ("debug", 1), ("info", 2),
   ("warn", 3), ("err", 4), ("critical", 5)]

/-- Embedding of the lookup `LOG_LEVEL_DICT[log_level]` on line 199.
`std::unordered_map::operator[]` returns the mapped value when the key is
present and otherwise default-inserts a value-initialized
`spdlog::level::level_enum`, i.e. numeric `0`; `getD 0` models exactly that
default insertion. -/
def logLevelOf (log_level : String) : Nat :=
  ((LOG_LEVEL_DICT.find? (fun p => p.fst == log_level)).map Prod.snd).getD 0

/-- Events of one iteration of the tick loop (lines 94-133), in program
order: `run` spawns one `std::thread` per vehicle, each thread runs
`vehicle->excute(...)`, all threads are joined, and only then does the loop
execute `timestamp += delta_t`. -/
inductive TickEvent where
  | spawnTask : Nat → TickEvent
  | commitState : Nat → TickEvent
  | joinBarrier : TickEvent
  | advanceTime : TickEvent
deriving DecidableEq

/-- Modelled from the spec: the body of `Vehicle::excute` (declared in
`vehicle.hpp`, which is not under `src/`).  Per spec section 4.2 the task
computes the vehicle's chosen action from the other agents' states; `run`
itself applies no action after the join (lines 103-133 contain only logging,
drawing and `timestamp += delta_t`), so the application of the chosen action
to the vehicle's own state — the commit required by spec section 4.4 — can
only happen inside `excute`, i.e. within the spawned task, before the join
barrier.  The task's observable event is therefore the commit of its own
vehicle's state. -/
def excuteBody (i : Nat) : List TickEvent := [TickEvent.commitState i]

/-- Events produced by the thread-spawning `for` loop (lines 96-101): one
spawn per vehicle, each task's body running before the barrier can pass. -/
def spawnPhase : Nat → List TickEvent
  | 0 => []
  | n + 1 => spawnPhase n ++ (TickEvent.spawnTask n :: excuteBody n)

/-- Linearized event trace of one tick with `n` vehicles: the spawned tasks
and their bodies (all of which complete before `join` returns), then the
join barrier of lines 103-107, then the time advance of line 133. -/
def tickTrace (n : Nat) : List TickEvent :=
  spawnPhase n ++ [TickEvent.joinBarrier, TickEvent.advanceTime]

/-! ## Claim C1 -/

/-- C1: the claim states that with zero configured rounds the run reports a
configuration error and the division `succeed_count / rounds_num` is
explicitly guarded against a zero divisor.  The source has no such guard:
with `rounds_num = 0` the round loop executes zero times, `succeed_count`
stays `0`, and control falls through to line 157, which executes
`100 * succeed_count / rounds_num` with divisor `0` — an integer division by
zero, i.e. C++ undefined behaviour (modelled `none`), not a reported
configuration error. -/
theorem zero_rounds_hits_unguarded_division :
    succeedCount (fun _ => none) 0 = 0 ∧ reportRate 0 0 = none :=
  ⟨rfl, rfl⟩

/-! ## Claim C3 -/

/-- C3 counterexample: a tick with a collision inside the time bound and a
tick past the time ceiling without collision end the round through the very
same branch with the very same result; the code does not end the round
`Collided` in the one case and `TimedOut` in the other, as the claim states,
but identically `failBreak` in both. -/
theorem fail_break_same_for_both_causes :
    checkPhase false true 5 10 = StepDecision.failBreak ∧
    checkPhase false false 12 10 = StepDecision.failBreak ∧
    checkPhase false true 5 10 = checkPhase false false 12 10 := by
  refine ⟨by norm_num [checkPhase], by norm_num [checkPhase], ?_⟩
  norm_num [checkPhase]

/-- C3 amended: for every tick of a running round, termination is evaluated
as — if all agents are at their goal the round ends with the success break
(this condition takes precedence); otherwise, if any pair of agents collides
or the elapsed simulated time exceeds the configured ceiling, the round ends
with the single merged failure break; otherwise the round continues. -/
theorem tick_check_evaluation_order (a c : Bool) (t m : ℚ) :
    (checkPhase a c t m = StepDecision.succeedBreak ↔ a = true) ∧
    (checkPhase a c t m = StepDecision.failBreak ↔ (a = false ∧ (c = true ∨ t > m))) ∧
    (checkPhase a c t m = StepDecision.continueTick ↔ (a = false ∧ c = false ∧ t ≤ m)) := by
  cases a with
  | true => simp [checkPhase]
  | false =>
    cases c with
    | true => simp [checkPhase]
    | false =>
      by_cases h : t > m
      · simp [checkPhase, h, not_le.mpr h]
      · simp [checkPhase, h, not_lt.mp h]

/-! ## Claim C4 -/

/-- C4 counterexample: with `succeed_count = 1` and `rounds_num = 3` the
source computes the unsigned integer quotient `100 * 1 / 3 = 33` (only then
converting it to `double`), which differs from the exact percentage
`100 / 3 = 33.33…`: the reported rate is integer-truncated, contrary to the
claim. -/
theorem success_rate_truncated :
    reportRate 1 3 = some 33 ∧ ((33 : ℚ) ≠ ((100 * 1 : ℕ) : ℚ) / 3) := by
  refine ⟨rfl, ?_⟩
  norm_num

/-- C4 amended: for every run with a positive number of configured rounds,
the reported success rate equals the integer-truncated percentage
`⌊100 * succeeded / rounds⌋` — the floor of the exact percentage, not the
exact value. -/
theorem success_rate_is_floor_percentage (s r : Nat) (hr : 0 < r) :
    ∃ v : Nat, reportRate s r = some v ∧
      (v : ℚ) ≤ ((100 * s : ℕ) : ℚ) / (r : ℚ) ∧
      ((100 * s : ℕ) : ℚ) / (r : ℚ) < v + 1 := by
  refine ⟨100 * s / r, ?_, ?_, ?_⟩
  · simp [reportRate, hr.ne']
  · rw [le_div_iff₀ (by exact_mod_cast hr)]
    exact_mod_cast Nat.div_mul_le_self (100 * s) r
  · rw [div_lt_iff₀ (by exact_mod_cast hr)]
    have h1 : r * (100 * s / r) + 100 * s % r = 100 * s := Nat.div_add_mod _ _
    have h2 : 100 * s % r < r := Nat.mod_lt _ hr
    have h3 : 100 * s < (100 * s / r + 1) * r := by
      have : (100 * s / r + 1) * r = r * (100 * s / r) + r := by ring
      omega
    exact_mod_cast h3

/-- C4 witness: the amended statement instantiated at one succeeded round
out of three. -/
theorem success_rate_is_floor_percentage_witness :
    ∃ v : Nat, reportRate 1 3 = some v ∧
      (v : ℚ) ≤ ((100 * 1 : ℕ) : ℚ) / ((3 : ℕ) : ℚ) ∧
      ((100 * 1 : ℕ) : ℚ) / ((3 : ℕ) : ℚ) < v + 1 :=
  success_rate_is_floor_percentage 1 3 (by norm_num)

/-! ## Claim C5 -/

/-- C5 counterexample: a configuration file that parses but lacks every
recognized required key makes `config["delta_t"].as<double>()` on line 49
throw outside the `try` block of lines 40-46: the process is terminated by
an unhandled exception, which is not the graceful abort of the caught
parse-failure path. -/
theorem missing_key_crashes :
    configPhase (some ⟨none, none, none, none⟩) = ConfigOutcome.uncaughtThrow ∧
    ConfigOutcome.uncaughtThrow ≠ ConfigOutcome.parseErrorReturn :=
  ⟨rfl, by decide⟩

/-- C5 amended: an unparseable configuration file is caught (the `try` block
wraps `YAML::LoadFile`) and the run aborts gracefully with a diagnostic; but
a parseable file missing one of the required keys `delta_t`,
`max_simulation_time`, `map_size` or `lane_width` throws an uncaught
exception — the key reads on lines 49-52 sit outside every `try` block — and
crashes the process. -/
theorem config_failure_handling (cfg : RawConfig)
    (h : cfg.delta_t = none ∨ cfg.max_simulation_time = none ∨
         cfg.map_size = none ∨ cfg.lane_width = none) :
    configPhase none = ConfigOutcome.parseErrorReturn ∧
    configPhase (some cfg) = ConfigOutcome.uncaughtThrow := by
  obtain ⟨d, mt, ms, lw⟩ := cfg
  refine ⟨rfl, ?_⟩
  cases d <;> cases mt <;> cases ms <;> cases lw <;> simp_all [configPhase]

/-- C5 witness: the amended statement instantiated at a configuration with
`delta_t` missing and the other keys present. -/
theorem config_failure_handling_witness :
    configPhase none = ConfigOutcome.parseErrorReturn ∧
    configPhase (some ⟨none, some 1, some 1, some 1⟩) = ConfigOutcome.uncaughtThrow :=
  config_failure_handling ⟨none, some 1, some 1, some 1⟩ (Or.inl rfl)

/-! ## Round-loop lemmas (used by C2 and C8) -/

/-- Once the tick index is late enough that `k * delta_t` exceeds the time
ceiling, the very next check phase breaks: the loop exits within one more
unfolding, whichever values the goal and collision predicates take. -/
theorem roundLoop_break_of_gt (ag ac : Nat → Bool) (dt mT : ℚ) :
    ∀ fuel k, (((k + fuel : ℕ) : ℚ) * dt > mT) →
      ∃ r, roundLoop ag ac dt mT (fuel + 1) k = some r := by
  intro fuel
  induction fuel with
  | zero =>
    intro k hk
    have hk' : mT < (k : ℚ) * dt := by
      have : ((k + 0 : ℕ) : ℚ) = (k : ℚ) := by push_cast; ring
      rw [this] at hk
      exact hk
    cases hag : ag k with
    | true => exact ⟨RoundResult.succeeded, by simp [roundLoop, checkPhase, hag]⟩
    | false =>
      refine ⟨RoundResult.failed, ?_⟩
      simp [roundLoop, checkPhase, hag, hk']
  | succ m ih =>
    intro k hk
    cases hag : ag k with
    | true => exact ⟨RoundResult.succeeded, by simp [roundLoop, checkPhase, hag]⟩
    | false =>
      by_cases hc : (ac k = true ∨ mT < (k : ℚ) * dt)
      · refine ⟨RoundResult.failed, ?_⟩
        simp [roundLoop, checkPhase, hag, hc]
      · obtain ⟨r, hr⟩ := ih (k + 1) (by
          have : k + 1 + m = k + (m + 1) := by omega
          rw [this]
          exact hk)
        refine ⟨r, ?_⟩
        simp only [roundLoop, checkPhase, hag]
        simp only [Bool.false_eq_true, if_false, hc, if_false]
        exact hr

/-- The round loop is stable in its fuel: once it exits with a result under
some fuel, any larger fuel yields the same result. -/
theorem roundLoop_mono (ag ac : Nat → Bool) (dt mT : ℚ) :
    ∀ fuel fuel' k r, fuel ≤ fuel' →
      roundLoop ag ac dt mT fuel k = some r →
      roundLoop ag ac dt mT fuel' k = some r := by
  intro fuel
  induction fuel with
  | zero => intro fuel' k r _ h; simp [roundLoop] at h
  | succ m ih =>
    intro fuel' k r hle h
    obtain ⟨m', rfl⟩ : ∃ m', fuel' = m' + 1 := ⟨fuel' - 1, by omega⟩
    have hm : m ≤ m' := by omega
    rw [roundLoop] at h ⊢
    cases hcp : checkPhase (ag k) (ac k) ((k : ℚ) * dt) mT with
    | succeedBreak => rw [hcp] at h; exact h
    | failBreak => rw [hcp] at h; exact h
    | continueTick =>
      rw [hcp] at h
      exact ih m' (k + 1) r hm h

/-- The timestamp reached after `⌈max_simulation_time / delta_t⌉ + 1` ticks
strictly exceeds the ceiling (for a positive step size). -/
theorem ticks_exceed_ceiling (dt mT : ℚ) (hdt : 0 < dt) :
    ((⌈mT / dt⌉.toNat + 1 : ℕ) : ℚ) * dt > mT := by
  have h1 : mT / dt ≤ (⌈mT / dt⌉ : ℚ) := Int.le_ceil _
  have h2 : ((⌈mT / dt⌉ : ℤ) : ℚ) ≤ ((⌈mT / dt⌉.toNat : ℕ) : ℚ) := by
    exact_mod_cast Int.self_le_toNat _
  have h3 : mT / dt < ((⌈mT / dt⌉.toNat + 1 : ℕ) : ℚ) := by
    push_cast
    push_cast at h2
    linarith
  have h4 : mT / dt * dt < ((⌈mT / dt⌉.toNat + 1 : ℕ) : ℚ) * dt :=
    mul_lt_mul_of_pos_right h3 hdt
  rwa [div_mul_cancel₀ _ (ne_of_gt hdt)] at h4

/-! ## Claim C2 -/

/-- C2 counterexample: the round-ending branch for a collision and the
round-ending branch for a timeout are the same branch with the same result
(`failBreak`): the code classifies both rounds with one merged outcome and
does not distinguish collision from timeout, contrary to the claim's three
distinct terminal outcomes. -/
theorem collision_and_timeout_merged :
    checkPhase false true 0 10 = StepDecision.failBreak ∧
    checkPhase false false 11 10 = StepDecision.failBreak := by
  constructor <;> norm_num [checkPhase]

/-- C2 amended: every round that starts (with a positive step size) ends in
exactly one of the TWO terminal outcomes of the code, `succeeded` or
`failed` — the outcome exists, and it is unique over every fuel bound — with
collision and timeout merged into the single `failed` outcome. -/
theorem round_outcome_exactly_one (ag ac : Nat → Bool) (dt mT : ℚ)
    (hdt : 0 < dt) :
    ∃ r : RoundResult,
      (∃ fuel, roundLoop ag ac dt mT fuel 0 = some r) ∧
      ∀ fuel r', roundLoop ag ac dt mT fuel 0 = some r' → r' = r := by
  obtain ⟨r, hr⟩ := roundLoop_break_of_gt ag ac dt mT (⌈mT / dt⌉.toNat + 1) 0
    (by simpa using ticks_exceed_ceiling dt mT hdt)
  refine ⟨r, ⟨_, hr⟩, ?_⟩
  intro fuel r' h'
  have h1 := roundLoop_mono ag ac dt mT (⌈mT / dt⌉.toNat + 1 + 1)
    (max (⌈mT / dt⌉.toNat + 1 + 1) fuel) 0 r (le_max_left _ _) hr
  have h2 := roundLoop_mono ag ac dt mT fuel
    (max (⌈mT / dt⌉.toNat + 1 + 1) fuel) 0 r' (le_max_right _ _) h'
  rw [h1] at h2
  exact (Option.some.inj h2).symm

/-- C2 witness: the amended statement instantiated at a round whose agents
are at their goals from the first tick, with step size 1 and ceiling 10. -/
theorem round_outcome_exactly_one_witness :
    ∃ r : RoundResult,
      (∃ fuel, roundLoop (fun _ => true) (fun _ => false) 1 10 fuel 0 = some r) ∧
      ∀ fuel r', roundLoop (fun _ => true) (fun _ => false) 1 10 fuel 0 = some r' → r' = r :=
  round_outcome_exactly_one (fun _ => true) (fun _ => false) 1 10 (by norm_num)

/-! ## Claim C8 -/

/-- C8: for a strictly positive step size the tick loop of a round
terminates: after at most `⌈max_simulation_time / delta_t⌉ + 1` ticks the
timestamp strictly exceeds the ceiling, and the loop — whatever the goal and
collision predicates do — exits through one of its two break branches within
that many iterations plus the final breaking check. -/
theorem tick_loop_terminates (ag ac : Nat → Bool) (dt mT : ℚ)
    (hdt : 0 < dt) :
    (((⌈mT / dt⌉.toNat + 1 : ℕ) : ℚ) * dt > mT) ∧
    ∃ r, roundLoop ag ac dt mT (⌈mT / dt⌉.toNat + 2) 0 = some r := by
  refine ⟨ticks_exceed_ceiling dt mT hdt, ?_⟩
  exact roundLoop_break_of_gt ag ac dt mT (⌈mT / dt⌉.toNat + 1) 0
    (by simpa using ticks_exceed_ceiling dt mT hdt)

/-- C8 witness: the termination statement instantiated at step size 1 and
ceiling 10, with agents that never reach the goal and never collide. -/
theorem tick_loop_terminates_witness :
    (((⌈(10 : ℚ) / 1⌉.toNat + 1 : ℕ) : ℚ) * 1 > 10) ∧
    ∃ r, roundLoop (fun _ => false) (fun _ => false) 1 10 (⌈(10 : ℚ) / 1⌉.toNat + 2) 0 = some r :=
  tick_loop_terminates (fun _ => false) (fun _ => false) 1 10 (by norm_num)

/-! ## Claim C9 -/

/-- C9: the success counter is incremented at most once per round (only in
the success break branch), so the count of succeeded rounds never exceeds
the number of rounds executed, and for a positive round count the reported
integer percentage `100 * succeed_count / rounds_num` never exceeds 100. -/
theorem succeed_count_bounded (res : Nat → Option RoundResult) (n : Nat)
    (hn : 0 < n) :
    succeedCount res n ≤ n ∧
    reportRate (succeedCount res n) n = some (100 * succeedCount res n / n) ∧
    100 * succeedCount res n / n ≤ 100 := by
  have hle : ∀ m, succeedCount res m ≤ m := by
    intro m
    induction m with
    | zero => simp [succeedCount]
    | succ k ih =>
      by_cases h : res k = some RoundResult.succeeded
      · simp only [succeedCount, h, if_pos]
        omega
      · simp only [succeedCount, h, if_neg, if_false]
        omega
  refine ⟨hle n, by simp [reportRate, hn.ne'], ?_⟩
  have h1 : 100 * succeedCount res n ≤ 100 * n :=
    Nat.mul_le_mul_left 100 (hle n)
  have h2 : 100 * succeedCount res n / n ≤ 100 * n / n :=
    Nat.div_le_div_right h1
  have h3 : 100 * n / n = 100 := Nat.mul_div_cancel 100 hn
  omega

/-- C9 witness: the bound instantiated at three rounds, all succeeding. -/
theorem succeed_count_bounded_witness :
    succeedCount (fun _ => some RoundResult.succeeded) 3 ≤ 3 ∧
    reportRate (succeedCount (fun _ => some RoundResult.succeeded) 3) 3 =
      some (100 * succeedCount (fun _ => some RoundResult.succeeded) 3 / 3) ∧
    100 * succeedCount (fun _ => some RoundResult.succeeded) 3 / 3 ≤ 100 :=
  succeed_count_bounded (fun _ => some RoundResult.succeeded) 3 (by norm_num)

/-! ## Tick-trace lemmas (used by C7) -/

/-- The spawn phase contains no join-barrier event. -/
theorem spawnPhase_count_joinBarrier (n : Nat) :
    (spawnPhase n).count TickEvent.joinBarrier = 0 := by
  induction n with
  | zero => simp [spawnPhase]
  | succ m ih => simp [spawnPhase, excuteBody, List.count_append, ih]

/-- The spawn phase contains no time-advance event. -/
theorem spawnPhase_count_advanceTime (n : Nat) :
    (spawnPhase n).count TickEvent.advanceTime = 0 := by
  induction n with
  | zero => simp [spawnPhase]
  | succ m ih => simp [spawnPhase, excuteBody, List.count_append, ih]

/-- The spawn phase spawns vehicle `i`'s task exactly once when `i < n`, and
never otherwise. -/
theorem spawnPhase_count_spawnTask (n i : Nat) :
    (spawnPhase n).count (TickEvent.spawnTask i) = if i < n then 1 else 0 := by
  induction n with
  | zero => simp [spawnPhase]
  | succ m ih =>
    have hseg : ([TickEvent.spawnTask m, TickEvent.commitState m] : List TickEvent).count
        (TickEvent.spawnTask i) = if i = m then 1 else 0 := by
      by_cases h : i = m
      · subst h; simp
      · simp [h, Ne.symm h]
    simp only [spawnPhase, excuteBody, List.count_append, ih, hseg]
    split_ifs <;> omega

/-- Every vehicle of the tick has its state-commit event in the spawn
phase. -/
theorem commitState_mem_spawnPhase (n i : Nat) (h : i < n) :
    TickEvent.commitState i ∈ spawnPhase n := by
  induction n with
  | zero => omega
  | succ m ih =>
    rw [spawnPhase]
    by_cases him : i = m
    · subst him
      exact List.mem_append_right _ (by simp [excuteBody])
    · exact List.mem_append_left _ (ih (by omega))

/-! ## Claim C7 -/

/-- C7 counterexample: in a tick with two vehicles, the unique state-commit
event of vehicle 0 occurs strictly before the unique join barrier (the
commit runs inside the spawned task, which completes before `join` can
return): the tasks are NOT all joined before any agent state is committed
for the tick, contrary to that part of the claim. -/
theorem commit_precedes_barrier :
    List.Sublist [TickEvent.commitState 0, TickEvent.joinBarrier] (tickTrace 2) ∧
    (tickTrace 2).count (TickEvent.commitState 0) = 1 ∧
    (tickTrace 2).count TickEvent.joinBarrier = 1 := by
  refine ⟨by decide, by decide, by decide⟩

/-- C7 amended: on every tick, exactly one planning task is launched per
agent (and none for out-of-range indices), there is exactly one join barrier
and exactly one time advance, the barrier precedes the time advance — so
simulated time is advanced by one `delta_t` only after all tasks of the tick
are joined — but each agent's state is committed inside its own planning
task, before the join barrier, not after it. -/
theorem tick_task_structure (n : Nat) :
    (tickTrace n).count TickEvent.joinBarrier = 1 ∧
    (tickTrace n).count TickEvent.advanceTime = 1 ∧
    (∀ i, (tickTrace n).count (TickEvent.spawnTask i) = if i < n then 1 else 0) ∧
    List.Sublist [TickEvent.joinBarrier, TickEvent.advanceTime] (tickTrace n) ∧
    (∀ i, i < n → List.Sublist [TickEvent.commitState i, TickEvent.joinBarrier] (tickTrace n)) := by
  refine ⟨?_, ?_, ?_, ?_, ?_⟩
  · simp [tickTrace, List.count_append, spawnPhase_count_joinBarrier]
  · simp [tickTrace, List.count_append, spawnPhase_count_advanceTime]
  · intro i
    simp [tickTrace, List.count_append, spawnPhase_count_spawnTask]
  · have h0 : List.Sublist ([] : List TickEvent) (spawnPhase n) := List.nil_sublist _
    exact h0.append (List.Sublist.refl [TickEvent.joinBarrier, TickEvent.advanceTime])
  · intro i hi
    have h1 : List.Sublist [TickEvent.commitState i] (spawnPhase n) :=
      List.singleton_sublist.mpr (commitState_mem_spawnPhase n i hi)
    have h2 : List.Sublist [TickEvent.joinBarrier]
        [TickEvent.joinBarrier, TickEvent.advanceTime] := by
      simp
    exact h1.append h2

/-- C7 witness: the amended structure instantiated at a tick with three
vehicles, checked for vehicle 1's spawn count and vehicle 2's commit. -/
theorem tick_task_structure_witness :
    (tickTrace 3).count (TickEvent.spawnTask 1) = (if 1 < 3 then 1 else 0) ∧
    List.Sublist [TickEvent.commitState 2, TickEvent.joinBarrier] (tickTrace 3) :=
  ⟨(tick_task_structure 3).2.2.1 1, (tick_task_structure 3).2.2.2.2 2 (by decide)⟩

/-! ## Claim C10 -/

/-- C10: an unrecognized `--log_level` string is not rejected:
`LOG_LEVEL_DICT[log_level]` default-inserts a value-initialized
`spdlog::level::level_enum`, numerically `0`, which is exactly the value
stored for `"trace"` — the most verbose level is silently enabled. -/
theorem unknown_log_level_most_verbose (log_level : String)
    (h : log_level ∉ LOG_LEVEL_DICT.map Prod.fst) :
    logLevelOf log_level = 0 ∧ logLevelOf "trace" = 0 := by
  refine ⟨?_, by decide⟩
  have hfind : LOG_LEVEL_DICT.find? (fun p => p.fst == log_level) = none := by
    rw [List.find?_eq_none]
    intro p hp hbeq
    exact h (List.mem_map.mpr ⟨p, hp, beq_iff_eq.mp hbeq⟩)
  simp [logLevelOf, hfind]

/-- C10 witness: the unrecognized string "verbose" is mapped to level 0,
the same numeric level as "trace". -/
theorem unknown_log_level_most_verbose_witness :
    logLevelOf "verbose" = 0 ∧ logLevelOf "trace" = 0 :=
  unknown_log_level_most_verbose "verbose" (by decide)

end DecisionMaking
